import Mathlib

/-!
Shallow embedding of the interactive playback session of `lilac`
(`cli/src/interactive.rs`) and proofs about it.

Modelling conventions:
* `Duration` and `Instant` are both modelled as `Nat`, in milliseconds.
  `Instant::now()` is passed explicitly as a `now : Nat` argument to every
  operation that reads the wall clock; `Instant::elapsed(started)` at time
  `now` is `now - started` (the program relies on a monotone clock).
* `rodio::Sink` is opaque to the program except for the commands issued to
  it, so it is modelled by the net effect of those commands: its play state,
  the last volume applied, and the index of the queue entry whose source was
  appended.  `set_volume(v as f32 / 100.0)` is recorded by its integer
  percentage numerator `v`, avoiding floating point.
* `Lilac` (one decoded track) is reduced to the one attribute the session
  reads from its source: `source().total_duration().unwrap()`.
* Terminal I/O (raw mode, alternate screen, drawing) is recorded in a trace
  of booleans/counters; a draw call may fail, modelled by a `drawErr`
  predicate on the frame index.  The background poll thread is modelled by
  the list of events it delivers through the channel, each with the
  wall-clock time at which the main loop handles it; an exhausted list
  models a failing `recv`.
* `crate::OK` (defined in the crate root, not part of these sources) is the
  successful `Result` of the session, reported as process exit code 0.
-/

namespace LilacPlayer

/-- One decoded track (`lilac::Lilac`), reduced to the total duration of its
playable source, in milliseconds. -/
structure Lilac where
  duration : Nat
  deriving DecidableEq, Repr, Inhabited

/-- Source `struct Queue { songs: Vec<(Lilac, PathBuf)>, cursor: usize }`. -/
structure Queue where
  songs : List (Lilac × String)
  cursor : Nat
  deriving DecidableEq, Repr, Inhabited

/-- Source `struct QueueEl<'a> { idx: usize, lilac: &'a Lilac }`. -/
structure QueueEl where
  idx : Nat
  lilac : Lilac
  deriving DecidableEq, Repr

/-- Source `Queue::is_empty`. -/
def Queue.isEmpty (q : Queue) : Bool :=
  q.songs.isEmpty

/-- Source `Queue::current`: `let (l, _) = &self.songs[self.cursor]`.  The indexing
is total in the model via `getD`; the session only calls it with the cursor
in bounds of a non-empty queue. -/
def Queue.current (q : Queue) : QueueEl :=
  { idx := q.cursor, lilac := (q.songs.getD q.cursor default).1 }

/-- Source `Queue::next`: advance the cursor unless it is at the last index;
return whether it moved. -/
def Queue.next (q : Queue) : Bool × Queue :=
  if q.cursor = q.songs.length - 1 then (false, q)
  else (true, { q with cursor := q.cursor + 1 })

/-- Source `Queue::prev`: retreat the cursor unless it is at index 0;
return whether it moved. -/
def Queue.prev (q : Queue) : Bool × Queue :=
  if q.cursor = 0 then (false, q)
  else (true, { q with cursor := q.cursor - 1 })

/-- One `prev`-until-stuck loop, with explicit fuel to make the recursion
structural.  Each successful `prev` decrements the cursor by one, so
`cursor` itself bounds the number of iterations. -/
def Queue.rewindAux : Nat → Queue → Queue
  | 0, q => q
  | fuel + 1, q =>
    if q.cursor = 0 then q
    else Queue.rewindAux fuel { q with cursor := q.cursor - 1 }

/-- Source loop `while queue.prev() \x7b\x7d` (the rewind loop in the `Event::Tick` arm):
keep calling `prev` until it reports no movement. -/
def Queue.rewind (q : Queue) : Queue :=
  Queue.rewindAux q.cursor q

/-- Source `struct Stopwatch { time: Duration, started: Instant, running: bool }`. -/
structure Stopwatch where
  time : Nat
  started : Nat
  running : Bool
  deriving DecidableEq, Repr

/-- Source `Stopwatch::new`. -/
def Stopwatch.new (now : Nat) : Stopwatch :=
  { time := 0, started := now, running := false }

/-- Source `Stopwatch::start`: no-op if already running, otherwise record `now` as
the start instant. -/
def Stopwatch.start (sw : Stopwatch) (now : Nat) : Stopwatch :=
  if sw.running then sw
  else { sw with running := true, started := now }

/-- Source `Stopwatch::stop`: no-op if not running, otherwise fold the run segment
into the accumulator. -/
def Stopwatch.stop (sw : Stopwatch) (now : Nat) : Stopwatch :=
  if !sw.running then sw
  else { sw with running := false, time := sw.time + (now - sw.started) }

/-- Source `Stopwatch::reset`: zero the accumulator and rebase the start instant. -/
def Stopwatch.reset (sw : Stopwatch) (now : Nat) : Stopwatch :=
  { sw with time := 0, started := now }

/-- Source `Stopwatch::time` (the read accessor; named `elapsed` here because the
field `time` already takes the source name). -/
def Stopwatch.elapsed (sw : Stopwatch) (now : Nat) : Nat :=
  if sw.running then sw.time + (now - sw.started) else sw.time

/-- Play state of a `rodio::Sink`. -/
inductive SinkStatus
  | playing
  | paused
  | stopped
  deriving DecidableEq, Repr

/-- Net effect of the commands the session issues to a `rodio::Sink`:
play state, last applied volume (`set_volume(v as f32 / 100.0)` recorded by
its percentage numerator `v`), and the queue index whose source was
appended. -/
structure Sink where
  status : SinkStatus
  volume : Nat
  track : Option Nat
  deriving DecidableEq, Repr

/-- Source `Sink::new(&device)`: a fresh sink plays what it is given, at volume
1.0 (100%), with nothing appended yet. -/
def Sink.new : Sink :=
  { status := SinkStatus.playing, volume := 100, track := none }

/-- Source call `sink.set_volume(v as f32 / 100.0)`. -/
def Sink.setVolume (s : Sink) (v : Nat) : Sink :=
  { s with volume := v }

/-- Source call `sink.append(source)` where `source` is the current queue entry's
stream; recorded by that entry's index. -/
def Sink.append (s : Sink) (idx : Nat) : Sink :=
  { s with track := some idx }

/-- Source call `sink.play()`. -/
def Sink.play (s : Sink) : Sink :=
  { s with status := SinkStatus.playing }

/-- Source call `sink.pause()`. -/
def Sink.pause (s : Sink) : Sink :=
  { s with status := SinkStatus.paused }

/-- Source call `sink.stop()`. -/
def Sink.stop (s : Sink) : Sink :=
  { s with status := SinkStatus.stopped }

/-- Source `struct PlaybackState { playing: bool, played: Duration, duration: Duration }`. -/
structure PlaybackState where
  playing : Bool
  played : Nat
  duration : Nat
  deriving DecidableEq, Repr

/-- Source `struct VolumeState(u16)`. -/
structure VolumeState where
  vol : Nat
  deriving DecidableEq, Repr

/-- Source `struct ControlsState { playback: PlaybackState, volume: VolumeState }`. -/
structure ControlsState where
  playback : PlaybackState
  volume : VolumeState
  deriving DecidableEq, Repr

/-- Source `struct QueueState { queue: Vec<String>, current: usize }`. -/
structure QueueState where
  queue : List String
  current : Nat
  deriving DecidableEq, Repr

/-- Source `InfoState`, reduced to the queue panel (the metadata panel reads
fields of `Lilac` that no claim mentions). -/
structure InfoState where
  queue : QueueState
  deriving DecidableEq, Repr

/-- Source `struct State { controls: ControlsState, info: InfoState }`. -/
structure State where
  controls : ControlsState
  info : InfoState
  deriving DecidableEq, Repr

/-- Source `Queue::files`: the listing of display names (the stored source path
stands for its file stem). -/
def Queue.files (q : Queue) : List String :=
  q.songs.map fun s => s.2

/-- Source `InfoState::read`. -/
def InfoState.read (q : Queue) : InfoState :=
  { queue := { queue := q.files, current := (q.current).idx } }

/-- The mutable state owned by the main loop: queue, stopwatch, sink and
display state. -/
structure Session where
  queue : Queue
  stopwatch : Stopwatch
  sink : Sink
  state : State
  deriving DecidableEq, Repr

/-- The key codes the session distinguishes; every other key is `other`. -/
inductive KeyCode
  | space
  | right
  | left
  | up
  | down
  | esc
  | other
  deriving DecidableEq, Repr

/-- Source `enum Event<T> { Input(T), Tick }`. -/
inductive Event
  | input (code : KeyCode)
  | tick
  deriving DecidableEq, Repr

/-- Threshold `Duration::from_secs(2)` in milliseconds. -/
def twoSeconds : Nat := 2000

/-- The `reset!` macro: stop and recreate the sink, reload the current
queue entry's source, zero `played`, take the new total duration, refresh
the info panel, reapply volume and the playing/paused flag, reset the
stopwatch. -/
def resetReload (s : Session) (now : Nat) : Session :=
  let _ := s.sink.stop
  let sink := Sink.new
  let source := s.queue.current
  let playback : PlaybackState :=
    { playing := s.state.controls.playback.playing
      played := 0
      duration := source.lilac.duration }
  let info := InfoState.read s.queue
  let sink := sink.setVolume s.state.controls.volume.vol
  let sink := sink.append source.idx
  let sink := if playback.playing then sink.play else sink.pause
  { queue := s.queue
    stopwatch := s.stopwatch.reset now
    sink := sink
    state :=
      { controls := { playback := playback, volume := s.state.controls.volume }
        info := info } }

/-- Outcome of handling one received event: continue the loop or break
(Escape). -/
inductive StepResult
  | cont (s : Session)
  | quit (s : Session)
  deriving DecidableEq, Repr

/-- The session carried by a `StepResult`. -/
def StepResult.session : StepResult → Session
  | .cont s => s
  | .quit s => s

/-- One iteration of the main loop's `match rx.recv()?` on the received
event, at wall-clock time `now`. -/
def step (s : Session) (e : Event) (now : Nat) : StepResult :=
  match e with
  | .input code =>
    match code with
    | .space =>
      let playing := !s.state.controls.playback.playing
      let s := { s with state.controls.playback.playing := playing }
      if playing then
        .cont { s with sink := s.sink.play, stopwatch := s.stopwatch.start now }
      else
        .cont { s with sink := s.sink.pause, stopwatch := s.stopwatch.stop now }
    | .right =>
      let n := s.queue.next
      if n.1 then .cont (resetReload { s with queue := n.2 } now)
      else .cont { s with queue := n.2 }
    | .left =>
      let s :=
        if s.stopwatch.elapsed now < twoSeconds then
          { s with queue := (s.queue.prev).2 }
        else s
      .cont (resetReload s now)
    | .up =>
      if s.state.controls.volume.vol < 100 then
        let vol := s.state.controls.volume.vol + 1
        .cont { s with state.controls.volume.vol := vol, sink := s.sink.setVolume vol }
      else .cont s
    | .down =>
      if s.state.controls.volume.vol > 0 then
        let vol := s.state.controls.volume.vol - 1
        .cont { s with state.controls.volume.vol := vol, sink := s.sink.setVolume vol }
      else .cont s
    | .esc => .quit s
    | .other => .cont s
  | .tick =>
    let s := { s with state.controls.playback.played := s.stopwatch.elapsed now }
    if s.state.controls.playback.duration ≤ s.state.controls.playback.played
        ∧ s.state.controls.playback.playing = true then
      let n := s.queue.next
      if n.1 then
        .cont (resetReload { s with queue := n.2 } now)
      else
        let s := { s with queue := s.queue.rewind }
        let s :=
          { s with
            state.controls.playback.playing := false
            sink := s.sink.pause
            stopwatch := s.stopwatch.stop now }
        .cont (resetReload s now)
    else .cont s

/-- Source `Queue::new`: decode every file in parallel, keep the successes in
order, write each failure to stderr (returned here as the log) and drop it.
Input: each path paired with its decode outcome (the external
`Lilac::read_file` collaborator's behavior). -/
def Queue.new (files : List (String × Except String Lilac)) : Queue × List String :=
  ({ songs :=
      files.filterMap fun f =>
        match f.2 with
        | .ok l => some (l, f.1)
        | .error _ => none
     cursor := 0 },
   files.filterMap fun f =>
     match f.2 with
     | .ok _ => none
     | .error e => some e)

/-- The session state built by `main` before entering the loop: stopwatch
fresh (stopped), first track's source appended to a fresh sink at volume
100%, sink paused, `playing = false`, `played = 0`. -/
def initialSession (queue : Queue) (now : Nat) : Session :=
  let stopwatch := Stopwatch.new now
  let source := queue.current
  let sink := Sink.new
  let state : State :=
    { controls :=
        { playback :=
            { playing := false, played := 0, duration := source.lilac.duration }
          volume := { vol := 100 } }
      info := InfoState.read queue }
  let sink := sink.setVolume state.controls.volume.vol
  let sink := sink.append source.idx
  let sink := sink.pause
  { queue := queue, stopwatch := stopwatch, sink := sink, state := state }

/-- The main loop: draw the current state (frame `frame`; a failing draw
propagates via `?`), then block on `rx.recv()` (an exhausted channel
propagates via `?`), then handle the event.  Returns the session at the
`break` or the propagated error, together with the number of frames
drawn. -/
def runLoop (drawErr : Nat → Bool) :
    Session → Nat → List (Event × Nat) → Except String Session × Nat
  | s, frame, events =>
    if drawErr frame then (.error "draw", frame)
    else
      match events with
      | [] => (.error "recv", frame + 1)
      | (e, t) :: rest =>
        match step s e t with
        | .quit s => (.ok s, frame + 1)
        | .cont s => runLoop drawErr s (frame + 1) rest

instance {ε α : Type} [DecidableEq ε] [DecidableEq α] :
    DecidableEq (Except ε α) := fun a b =>
  match a, b with
  | .ok x, .ok y =>
    if h : x = y then .isTrue (by rw [h]) else .isFalse (by simp [h])
  | .ok _, .error _ => .isFalse (by simp)
  | .error _, .ok _ => .isFalse (by simp)
  | .error x, .error y =>
    if h : x = y then .isTrue (by rw [h]) else .isFalse (by simp [h])

/-- Observable outcome of `interactive::main`: the returned `Result`
(`.ok ()` is `crate::OK`, process exit code 0), whether raw mode and the
alternate screen were entered and later left again, how many frames were
drawn, and the decode failures written to stderr. -/
structure MainResult where
  result : Except String Unit
  rawModeEntered : Bool
  rawModeExited : Bool
  altScreenEntered : Bool
  altScreenLeft : Bool
  framesDrawn : Nat
  log : List String
  deriving DecidableEq, Repr

/-- Source `interactive::main`: build the queue (dropping and logging decode
failures), return `crate::OK` immediately if it is empty, acquire the audio
device, enable raw mode and enter the alternate screen, run the loop, and
on a `break` (Escape) leave the alternate screen and disable raw mode.  An
error inside the loop propagates via `?` past the restore code. -/
def interactiveMain (files : List (String × Except String Lilac))
    (deviceOk : Bool) (t0 : Nat) (events : List (Event × Nat))
    (drawErr : Nat → Bool) : MainResult :=
  let ql := Queue.new files
  let queue := ql.1
  let log := ql.2
  if queue.isEmpty then
    { result := .ok (), rawModeEntered := false, rawModeExited := false
      altScreenEntered := false, altScreenLeft := false
      framesDrawn := 0, log := log }
  else if !deviceOk then
    { result := .error "No audio output device"
      rawModeEntered := false, rawModeExited := false
      altScreenEntered := false, altScreenLeft := false
      framesDrawn := 0, log := log }
  else
    match runLoop drawErr (initialSession queue t0) 0 events with
    | (.ok _, frames) =>
      { result := .ok (), rawModeEntered := true, rawModeExited := true
        altScreenEntered := true, altScreenLeft := true
        framesDrawn := frames, log := log }
    | (.error e, frames) =>
      { result := .error e, rawModeEntered := true, rawModeExited := false
        altScreenEntered := true, altScreenLeft := false
        framesDrawn := frames, log := log }

/-- A `next`/`prev` navigation request. -/
inductive NavOp
  | fwd
  | back
  deriving DecidableEq, Repr

/-- Apply one navigation call, keeping the resulting queue. -/
def Queue.applyNav (q : Queue) : NavOp → Queue
  | .fwd => (q.next).2
  | .back => (q.prev).2

/-- Apply a sequence of `next`/`prev` calls. -/
def Queue.applyNavs (q : Queue) (ops : List NavOp) : Queue :=
  ops.foldl Queue.applyNav q

/-- Feed a sequence of key inputs (each with its wall-clock time) to the
loop body. -/
def runInputs (s : Session) : List (KeyCode × Nat) → Session
  | [] => s
  | (k, t) :: rest => runInputs ((step s (.input k) t).session) rest

/-! Helper lemmas about the embedded operations. -/

@[simp] theorem Stopwatch.running_after_start (sw : Stopwatch) (now : Nat) :
    (sw.start now).running = true := by
  unfold Stopwatch.start; split <;> simp_all

@[simp] theorem Stopwatch.running_after_stop (sw : Stopwatch) (now : Nat) :
    (sw.stop now).running = false := by
  unfold Stopwatch.stop; split <;> simp_all

@[simp] theorem Stopwatch.running_after_reset (sw : Stopwatch) (now : Nat) :
    (sw.reset now).running = sw.running := rfl

@[simp] theorem Stopwatch.elapsed_after_reset (sw : Stopwatch) (now : Nat) :
    (sw.reset now).elapsed now = 0 := by
  unfold Stopwatch.reset Stopwatch.elapsed; split <;> simp

theorem Queue.rewindAux_songs (fuel : Nat) : ∀ q : Queue,
    (Queue.rewindAux fuel q).songs = q.songs := by
  induction fuel with
  | zero => intro q; rfl
  | succ n ih =>
    intro q
    unfold Queue.rewindAux
    split
    · rfl
    · exact ih _

theorem Queue.rewindAux_cursor (fuel : Nat) : ∀ q : Queue,
    q.cursor ≤ fuel → (Queue.rewindAux fuel q).cursor = 0 := by
  induction fuel with
  | zero => intro q h; unfold Queue.rewindAux; omega
  | succ n ih =>
    intro q h
    unfold Queue.rewindAux
    split
    · assumption
    · exact ih _ (by simp; omega)

@[simp] theorem Queue.rewind_songs (q : Queue) : q.rewind.songs = q.songs :=
  Queue.rewindAux_songs _ _

@[simp] theorem Queue.rewind_cursor (q : Queue) : q.rewind.cursor = 0 :=
  Queue.rewindAux_cursor _ _ le_rfl

@[simp] theorem resetReload_queue (s : Session) (now : Nat) :
    (resetReload s now).queue = s.queue := rfl

@[simp] theorem resetReload_stopwatch (s : Session) (now : Nat) :
    (resetReload s now).stopwatch = s.stopwatch.reset now := rfl

@[simp] theorem resetReload_playing (s : Session) (now : Nat) :
    (resetReload s now).state.controls.playback.playing
      = s.state.controls.playback.playing := rfl

@[simp] theorem resetReload_played (s : Session) (now : Nat) :
    (resetReload s now).state.controls.playback.played = 0 := rfl

@[simp] theorem resetReload_duration (s : Session) (now : Nat) :
    (resetReload s now).state.controls.playback.duration
      = ((s.queue.songs.getD s.queue.cursor default).1).duration := rfl

@[simp] theorem resetReload_volume (s : Session) (now : Nat) :
    (resetReload s now).state.controls.volume = s.state.controls.volume := rfl

@[simp] theorem resetReload_sink_track (s : Session) (now : Nat) :
    (resetReload s now).sink.track = some s.queue.cursor := by
  dsimp only [resetReload, Sink.play, Sink.pause, Sink.append, Sink.setVolume,
    Sink.new, Queue.current]
  split <;> rfl

@[simp] theorem resetReload_sink_status (s : Session) (now : Nat) :
    (resetReload s now).sink.status
      = if s.state.controls.playback.playing then SinkStatus.playing
        else SinkStatus.paused := by
  dsimp only [resetReload, Sink.play, Sink.pause, Sink.append, Sink.setVolume,
    Sink.new, Queue.current]
  split <;> simp_all

theorem Queue.applyNav_songs (q : Queue) (op : NavOp) :
    (q.applyNav op).songs = q.songs := by
  cases op <;> dsimp only [Queue.applyNav, Queue.next, Queue.prev] <;>
    split <;> rfl

theorem Queue.applyNav_cursor_lt (q : Queue) (op : NavOp)
    (h : q.cursor < q.songs.length) :
    (q.applyNav op).cursor < q.songs.length := by
  cases op <;> dsimp only [Queue.applyNav, Queue.next, Queue.prev] <;>
    split <;> dsimp only [] <;> omega

theorem Queue.applyNavs_songs (q : Queue) (ops : List NavOp) :
    (q.applyNavs ops).songs = q.songs := by
  induction ops generalizing q with
  | nil => rfl
  | cons op rest ih =>
    show (Queue.applyNavs (q.applyNav op) rest).songs = q.songs
    rw [ih, Queue.applyNav_songs]

theorem Queue.applyNavs_cursor_lt (q : Queue) (ops : List NavOp)
    (h : q.cursor < q.songs.length) :
    (q.applyNavs ops).cursor < q.songs.length := by
  induction ops generalizing q with
  | nil => exact h
  | cons op rest ih =>
    show (Queue.applyNavs (q.applyNav op) rest).cursor < q.songs.length
    rw [← Queue.applyNav_songs q op]
    exact ih _ (by rw [Queue.applyNav_songs]; exact Queue.applyNav_cursor_lt q op h)

/-! The claim theorems. -/

/-- C3: for every state of the playback clock, `elapsed()` equals the
accumulated duration plus (now minus the recorded start instant) while the
clock is running, and exactly the accumulated duration while stopped; and
`elapsed()` evaluated at the instant right after `reset()` is zero. -/
theorem c3_elapsed_is_stopwatch_read (sw : Stopwatch) (now : Nat) :
    (sw.running = true → sw.elapsed now = sw.time + (now - sw.started)) ∧
    (sw.running = false → sw.elapsed now = sw.time) ∧
    (sw.reset now).elapsed now = 0 := by
  refine ⟨fun h => ?_, fun h => ?_, ?_⟩
  · simp [Stopwatch.elapsed, h]
  · simp [Stopwatch.elapsed, h]
  · simp

theorem c3_witness :
    ((⟨5, 3, true⟩ : Stopwatch).elapsed 10 = 5 + (10 - 3)) ∧
    ((⟨5, 3, false⟩ : Stopwatch).elapsed 10 = 5) ∧
    (((⟨5, 3, true⟩ : Stopwatch).reset 10).elapsed 10 = 0) :=
  ⟨(c3_elapsed_is_stopwatch_read ⟨5, 3, true⟩ 10).1 rfl,
   (c3_elapsed_is_stopwatch_read ⟨5, 3, false⟩ 10).2.1 rfl,
   (c3_elapsed_is_stopwatch_read ⟨5, 3, true⟩ 10).2.2⟩

/-- C6: `start()` twice in a row leaves the clock as `start()` once does;
`stop()` on a stopped clock is a no-op; and after `stop()` the value of
`elapsed()` does not depend on further wall-clock passage. -/
theorem c6_start_stop_idempotent (sw : Stopwatch) (t1 t2 u1 u2 : Nat) :
    (sw.start t1).start t2 = sw.start t1 ∧
    (sw.running = false → sw.stop t1 = sw) ∧
    (sw.stop t1).elapsed u1 = (sw.stop t1).elapsed u2 := by
  refine ⟨?_, fun h => ?_, ?_⟩
  · by_cases h : sw.running <;> simp [Stopwatch.start, h]
  · simp [Stopwatch.stop, h]
  · by_cases h : sw.running <;>
      simp [Stopwatch.stop, Stopwatch.elapsed, h]

theorem c6_witness :
    (((⟨5, 3, false⟩ : Stopwatch).start 4).start 6
        = (⟨5, 3, false⟩ : Stopwatch).start 4) ∧
    ((⟨5, 3, false⟩ : Stopwatch).stop 4 = (⟨5, 3, false⟩ : Stopwatch)) ∧
    (((⟨5, 3, false⟩ : Stopwatch).stop 4).elapsed 8
        = ((⟨5, 3, false⟩ : Stopwatch).stop 4).elapsed 99) :=
  ⟨(c6_start_stop_idempotent ⟨5, 3, false⟩ 4 6 8 99).1,
   (c6_start_stop_idempotent ⟨5, 3, false⟩ 4 6 8 99).2.1 rfl,
   (c6_start_stop_idempotent ⟨5, 3, false⟩ 4 6 8 99).2.2⟩

/-- C4: from a cursor in bounds, every sequence of `next()`/`prev()` calls
keeps the cursor within `[0, len-1]`; `next()` at the last index returns
false and leaves the queue unchanged, and `prev()` at index 0 returns false
and leaves the queue unchanged. -/
theorem c4_queue_cursor_bounds (q : Queue) (ops : List NavOp)
    (h : q.cursor < q.songs.length) :
    (q.applyNavs ops).cursor < (q.applyNavs ops).songs.length ∧
    ((q.applyNavs ops).cursor = (q.applyNavs ops).songs.length - 1 →
      (q.applyNavs ops).next = (false, q.applyNavs ops)) ∧
    ((q.applyNavs ops).cursor = 0 →
      (q.applyNavs ops).prev = (false, q.applyNavs ops)) := by
  refine ⟨?_, fun hl => ?_, fun h0 => ?_⟩
  · rw [Queue.applyNavs_songs]
    exact Queue.applyNavs_cursor_lt q ops h
  · simp [Queue.next, hl]
  · simp [Queue.prev, h0]

theorem c4_witness :
    ((Queue.applyNavs ⟨[(⟨10⟩, "a"), (⟨20⟩, "b")], 0⟩
        [NavOp.fwd, NavOp.fwd, NavOp.back]).cursor
      < (Queue.applyNavs ⟨[(⟨10⟩, "a"), (⟨20⟩, "b")], 0⟩
        [NavOp.fwd, NavOp.fwd, NavOp.back]).songs.length) ∧
    ((Queue.applyNavs ⟨[(⟨10⟩, "a"), (⟨20⟩, "b")], 0⟩
        [NavOp.fwd, NavOp.fwd, NavOp.back]).cursor
        = (Queue.applyNavs ⟨[(⟨10⟩, "a"), (⟨20⟩, "b")], 0⟩
            [NavOp.fwd, NavOp.fwd, NavOp.back]).songs.length - 1 →
      (Queue.applyNavs ⟨[(⟨10⟩, "a"), (⟨20⟩, "b")], 0⟩
        [NavOp.fwd, NavOp.fwd, NavOp.back]).next
        = (false, Queue.applyNavs ⟨[(⟨10⟩, "a"), (⟨20⟩, "b")], 0⟩
            [NavOp.fwd, NavOp.fwd, NavOp.back])) ∧
    ((Queue.applyNavs ⟨[(⟨10⟩, "a"), (⟨20⟩, "b")], 0⟩
        [NavOp.fwd, NavOp.fwd, NavOp.back]).cursor = 0 →
      (Queue.applyNavs ⟨[(⟨10⟩, "a"), (⟨20⟩, "b")], 0⟩
        [NavOp.fwd, NavOp.fwd, NavOp.back]).prev
        = (false, Queue.applyNavs ⟨[(⟨10⟩, "a"), (⟨20⟩, "b")], 0⟩
            [NavOp.fwd, NavOp.fwd, NavOp.back])) :=
  c4_queue_cursor_bounds ⟨[(⟨10⟩, "a"), (⟨20⟩, "b")], 0⟩
    [NavOp.fwd, NavOp.fwd, NavOp.back] (by decide)

theorem step_up_vol (s : Session) (t : Nat) :
    ((step s (Event.input KeyCode.up) t).session).state.controls.volume.vol
      = if s.state.controls.volume.vol < 100 then s.state.controls.volume.vol + 1
        else s.state.controls.volume.vol := by
  dsimp only [step]
  by_cases h : s.state.controls.volume.vol < 100 <;>
    simp [h, StepResult.session]

theorem step_down_vol (s : Session) (t : Nat) :
    ((step s (Event.input KeyCode.down) t).session).state.controls.volume.vol
      = if 0 < s.state.controls.volume.vol then s.state.controls.volume.vol - 1
        else s.state.controls.volume.vol := by
  dsimp only [step]
  by_cases h : 0 < s.state.controls.volume.vol <;>
    simp [h, StepResult.session]

theorem runInputs_vol_le (s : Session) (ks : List (KeyCode × Nat))
    (hks : ∀ p ∈ ks, p.1 = KeyCode.up ∨ p.1 = KeyCode.down)
    (h : s.state.controls.volume.vol ≤ 100) :
    (runInputs s ks).state.controls.volume.vol ≤ 100 := by
  induction ks generalizing s with
  | nil => exact h
  | cons p rest ih =>
    obtain ⟨k, t⟩ := p
    have hp := hks (k, t) (List.mem_cons_self _ _)
    have hrest : ∀ q ∈ rest, q.1 = KeyCode.up ∨ q.1 = KeyCode.down :=
      fun q hq => hks q (List.mem_cons_of_mem _ hq)
    show (runInputs ((step s (Event.input k) t).session) rest).state.controls.volume.vol ≤ 100
    refine ih _ hrest ?_
    rcases hp with hk | hk <;> subst hk
    · rw [step_up_vol]; split <;> omega
    · rw [step_down_vol]; split <;> omega

/-- C7: starting from a volume at most 100 (the initial volume is 100),
any sequence of volume up/down presses keeps the volume in `[0, 100]`
(the lower bound holds by the `Nat` representation); an up-press at 100 and
a down-press at 0 leave the state unchanged, and every other press moves
the volume by the fixed step of one. -/
theorem c7_volume_clamped (s : Session) (ks : List (KeyCode × Nat)) (t : Nat)
    (hks : ∀ p ∈ ks, p.1 = KeyCode.up ∨ p.1 = KeyCode.down)
    (h : s.state.controls.volume.vol ≤ 100) :
    (runInputs s ks).state.controls.volume.vol ≤ 100 ∧
    (s.state.controls.volume.vol = 100 →
      step s (Event.input KeyCode.up) t = StepResult.cont s) ∧
    (s.state.controls.volume.vol = 0 →
      step s (Event.input KeyCode.down) t = StepResult.cont s) ∧
    (s.state.controls.volume.vol < 100 →
      ((step s (Event.input KeyCode.up) t).session).state.controls.volume.vol
        = s.state.controls.volume.vol + 1) ∧
    (0 < s.state.controls.volume.vol →
      ((step s (Event.input KeyCode.down) t).session).state.controls.volume.vol
        = s.state.controls.volume.vol - 1) := by
  refine ⟨runInputs_vol_le s ks hks h, fun h100 => ?_, fun h0 => ?_,
    fun hlt => ?_, fun hpos => ?_⟩
  · dsimp only [step]; rw [if_neg (by omega)]
  · dsimp only [step]; rw [if_neg (by omega)]
  · rw [step_up_vol, if_pos hlt]
  · rw [step_down_vol, if_pos hpos]

theorem c7_witness :
    (∀ p ∈ [(KeyCode.up, (0 : Nat)), (KeyCode.down, 1)],
        p.1 = KeyCode.up ∨ p.1 = KeyCode.down) ∧
    (initialSession ⟨[(⟨10000⟩, "a")], 0⟩ 0).state.controls.volume.vol ≤ 100 ∧
    ((runInputs (initialSession ⟨[(⟨10000⟩, "a")], 0⟩ 0)
        [(KeyCode.up, 0), (KeyCode.down, 1)]).state.controls.volume.vol ≤ 100 ∧
      ((initialSession ⟨[(⟨10000⟩, "a")], 0⟩ 0).state.controls.volume.vol = 100 →
        step (initialSession ⟨[(⟨10000⟩, "a")], 0⟩ 0) (Event.input KeyCode.up) 5
          = StepResult.cont (initialSession ⟨[(⟨10000⟩, "a")], 0⟩ 0)) ∧
      ((initialSession ⟨[(⟨10000⟩, "a")], 0⟩ 0).state.controls.volume.vol = 0 →
        step (initialSession ⟨[(⟨10000⟩, "a")], 0⟩ 0) (Event.input KeyCode.down) 5
          = StepResult.cont (initialSession ⟨[(⟨10000⟩, "a")], 0⟩ 0)) ∧
      ((initialSession ⟨[(⟨10000⟩, "a")], 0⟩ 0).state.controls.volume.vol < 100 →
        ((step (initialSession ⟨[(⟨10000⟩, "a")], 0⟩ 0)
            (Event.input KeyCode.up) 5).session).state.controls.volume.vol
          = (initialSession ⟨[(⟨10000⟩, "a")], 0⟩ 0).state.controls.volume.vol + 1) ∧
      (0 < (initialSession ⟨[(⟨10000⟩, "a")], 0⟩ 0).state.controls.volume.vol →
        ((step (initialSession ⟨[(⟨10000⟩, "a")], 0⟩ 0)
            (Event.input KeyCode.down) 5).session).state.controls.volume.vol
          = (initialSession ⟨[(⟨10000⟩, "a")], 0⟩ 0).state.controls.volume.vol - 1)) :=
  ⟨by decide, by decide,
    c7_volume_clamped (initialSession ⟨[(⟨10000⟩, "a")], 0⟩ 0)
      [(KeyCode.up, 0), (KeyCode.down, 1)] 5 (by decide) (by decide)⟩

/-- C2: on a Left key, when the clock's elapsed time is strictly below two
seconds the cursor moves to the previous track when one exists (and stays
at 0 otherwise); when elapsed is at least two seconds the cursor stays
unchanged; in both cases the reset-and-reload sequence runs, so `played`
and the clock's elapsed time are reset to 0. -/
theorem c2_skip_backward_threshold (s : Session) (now : Nat) (s' : Session)
    (hs' : s' = (step s (Event.input KeyCode.left) now).session) :
    (s.stopwatch.elapsed now < twoSeconds → 0 < s.queue.cursor →
      s'.queue.cursor = s.queue.cursor - 1) ∧
    (s.stopwatch.elapsed now < twoSeconds → s.queue.cursor = 0 →
      s'.queue.cursor = 0) ∧
    (twoSeconds ≤ s.stopwatch.elapsed now → s'.queue.cursor = s.queue.cursor) ∧
    s'.state.controls.playback.played = 0 ∧
    s'.stopwatch.elapsed now = 0 := by
  subst hs'
  by_cases h : s.stopwatch.elapsed now < twoSeconds
  · refine ⟨fun _ hpos => ?_, fun _ h0 => ?_, fun hge => absurd h (by omega),
      ?_, ?_⟩ <;>
      simp [step, StepResult.session, h, Queue.prev]
    · rw [if_neg (by omega)]
    · simp [h0]
  · refine ⟨fun hlt _ => absurd hlt h, fun hlt _ => absurd hlt h, fun _ => ?_,
      ?_, ?_⟩ <;>
      simp [step, StepResult.session, h]

theorem c2_witness :
    (((initialSession ⟨[(⟨9000⟩, "a"), (⟨9000⟩, "b")], 1⟩ 0).stopwatch.elapsed 50
          < twoSeconds →
        0 < (initialSession ⟨[(⟨9000⟩, "a"), (⟨9000⟩, "b")], 1⟩ 0).queue.cursor →
        ((step (initialSession ⟨[(⟨9000⟩, "a"), (⟨9000⟩, "b")], 1⟩ 0)
            (Event.input KeyCode.left) 50).session).queue.cursor
          = (initialSession ⟨[(⟨9000⟩, "a"), (⟨9000⟩, "b")], 1⟩ 0).queue.cursor - 1) ∧
      ((initialSession ⟨[(⟨9000⟩, "a"), (⟨9000⟩, "b")], 1⟩ 0).stopwatch.elapsed 50
          < twoSeconds →
        (initialSession ⟨[(⟨9000⟩, "a"), (⟨9000⟩, "b")], 1⟩ 0).queue.cursor = 0 →
        ((step (initialSession ⟨[(⟨9000⟩, "a"), (⟨9000⟩, "b")], 1⟩ 0)
            (Event.input KeyCode.left) 50).session).queue.cursor = 0) ∧
      (twoSeconds ≤
          (initialSession ⟨[(⟨9000⟩, "a"), (⟨9000⟩, "b")], 1⟩ 0).stopwatch.elapsed 50 →
        ((step (initialSession ⟨[(⟨9000⟩, "a"), (⟨9000⟩, "b")], 1⟩ 0)
            (Event.input KeyCode.left) 50).session).queue.cursor
          = (initialSession ⟨[(⟨9000⟩, "a"), (⟨9000⟩, "b")], 1⟩ 0).queue.cursor) ∧
      ((step (initialSession ⟨[(⟨9000⟩, "a"), (⟨9000⟩, "b")], 1⟩ 0)
          (Event.input KeyCode.left) 50).session).state.controls.playback.played = 0 ∧
      ((step (initialSession ⟨[(⟨9000⟩, "a"), (⟨9000⟩, "b")], 1⟩ 0)
          (Event.input KeyCode.left) 50).session).stopwatch.elapsed 50 = 0) :=
  c2_skip_backward_threshold (initialSession ⟨[(⟨9000⟩, "a"), (⟨9000⟩, "b")], 1⟩ 0)
    50 _ rfl

/-- C5: from a state whose playing flag agrees with the clock's running
flag, toggling play/pause twice returns both flags to their original
values, and the clock's accumulated time changes only by the wall-clock
span of the toggle interval itself: elapsed after the round trip equals
elapsed at the first toggle, plus the toggle interval when the transport
was paused (the clock ran during the interval), plus nothing when it was
playing (the clock was stopped during the interval). -/
theorem c5_toggle_round_trip (s : Session) (t1 t2 : Nat) (s1 s2 : Session)
    (hcons : s.state.controls.playback.playing = s.stopwatch.running)
    (hs1 : s1 = (step s (Event.input KeyCode.space) t1).session)
    (hs2 : s2 = (step s1 (Event.input KeyCode.space) t2).session) :
    s2.state.controls.playback.playing = s.state.controls.playback.playing ∧
    s2.stopwatch.running = s.stopwatch.running ∧
    s2.stopwatch.elapsed t2 =
      s.stopwatch.elapsed t1
        + (if s.state.controls.playback.playing then 0 else t2 - t1) := by
  subst hs1 hs2
  by_cases hp : s.state.controls.playback.playing = true
  · have hrun : s.stopwatch.running = true := hcons ▸ hp
    simp [step, StepResult.session, hp, hrun, Stopwatch.stop, Stopwatch.start,
      Stopwatch.elapsed]
  · have hp' : s.state.controls.playback.playing = false := by
      cases hb : s.state.controls.playback.playing <;> simp_all
    have hrun : s.stopwatch.running = false := hcons ▸ hp'
    simp [step, StepResult.session, hp', hrun, Stopwatch.stop, Stopwatch.start,
      Stopwatch.elapsed]

theorem c5_witness :
    ((step ((step (initialSession ⟨[(⟨9000⟩, "a")], 0⟩ 0)
          (Event.input KeyCode.space) 40).session)
        (Event.input KeyCode.space) 70).session).state.controls.playback.playing
      = (initialSession ⟨[(⟨9000⟩, "a")], 0⟩ 0).state.controls.playback.playing ∧
    ((step ((step (initialSession ⟨[(⟨9000⟩, "a")], 0⟩ 0)
          (Event.input KeyCode.space) 40).session)
        (Event.input KeyCode.space) 70).session).stopwatch.running
      = (initialSession ⟨[(⟨9000⟩, "a")], 0⟩ 0).stopwatch.running ∧
    ((step ((step (initialSession ⟨[(⟨9000⟩, "a")], 0⟩ 0)
          (Event.input KeyCode.space) 40).session)
        (Event.input KeyCode.space) 70).session).stopwatch.elapsed 70
      = (initialSession ⟨[(⟨9000⟩, "a")], 0⟩ 0).stopwatch.elapsed 40
        + (if (initialSession ⟨[(⟨9000⟩, "a")], 0⟩ 0).state.controls.playback.playing
            then 0 else 70 - 40) :=
  c5_toggle_round_trip (initialSession ⟨[(⟨9000⟩, "a")], 0⟩ 0) 40 70 _ _
    (by decide) rfl rfl

/-- C1: on a Tick received while playing with elapsed at least the current
total duration, the controller attempts `Queue.next()`: if the cursor is
not yet at the last index it advances, `played` and the clock reset to 0,
the new track's duration is loaded and the recreated sink plays it with
playing still true; if the cursor is at the last index it is rewound to 0,
playing becomes false, the clock is stopped, and track 0 is reloaded into
the recreated sink in a paused state. -/
theorem c1_tick_end_of_track (s : Session) (now : Nat) (s' : Session)
    (hs' : s' = (step s Event.tick now).session)
    (hp : s.state.controls.playback.playing = true)
    (hel : s.state.controls.playback.duration ≤ s.stopwatch.elapsed now) :
    (s.queue.cursor + 1 < s.queue.songs.length →
      s'.queue.cursor = s.queue.cursor + 1 ∧
      s'.state.controls.playback.playing = true ∧
      s'.state.controls.playback.played = 0 ∧
      s'.state.controls.playback.duration
        = ((s.queue.songs.getD (s.queue.cursor + 1) default).1).duration ∧
      s'.stopwatch.elapsed now = 0 ∧
      s'.sink.status = SinkStatus.playing ∧
      s'.sink.track = some (s.queue.cursor + 1)) ∧
    (s.queue.cursor + 1 = s.queue.songs.length →
      s'.queue.cursor = 0 ∧
      s'.state.controls.playback.playing = false ∧
      s'.stopwatch.running = false ∧
      s'.state.controls.playback.played = 0 ∧
      s'.stopwatch.elapsed now = 0 ∧
      s'.sink.status = SinkStatus.paused ∧
      s'.sink.track = some 0 ∧
      s'.state.controls.playback.duration
        = ((s.queue.songs.getD 0 default).1).duration) := by
  subst hs'
  refine ⟨fun hlt => ?_, fun heq => ?_⟩
  · have hne : ¬s.queue.cursor = s.queue.songs.length - 1 := by omega
    simp [step, StepResult.session, Queue.next, hp, hel, hne]
  · have he : s.queue.cursor = s.queue.songs.length - 1 := by omega
    simp [step, StepResult.session, Queue.next, hp, hel, he]

theorem c1_witness :
    ((step ((step (initialSession ⟨[(⟨100⟩, "a"), (⟨200⟩, "b")], 0⟩ 0)
          (Event.input KeyCode.space) 0).session) Event.tick 100).session).queue.cursor
      = ((step (initialSession ⟨[(⟨100⟩, "a"), (⟨200⟩, "b")], 0⟩ 0)
          (Event.input KeyCode.space) 0).session).queue.cursor + 1 ∧
    ((step ((step (initialSession ⟨[(⟨100⟩, "a"), (⟨200⟩, "b")], 0⟩ 0)
          (Event.input KeyCode.space) 0).session) Event.tick 100).session
        ).state.controls.playback.playing = true :=
  ⟨((c1_tick_end_of_track _ 100 _ rfl (by decide) (by decide)).1
      (by decide)).1,
   ((c1_tick_end_of_track _ 100 _ rfl (by decide) (by decide)).1
      (by decide)).2.1⟩

/-- C10: the session starts with the playing flag false and the stopwatch
stopped, and handling any single event preserves agreement between the
displayed playing flag and the clock's running flag. -/
theorem c10_playing_iff_running (q : Queue) (t0 : Nat) (s : Session)
    (e : Event) (now : Nat)
    (h : s.state.controls.playback.playing = s.stopwatch.running) :
    (initialSession q t0).state.controls.playback.playing = false ∧
    (initialSession q t0).stopwatch.running = false ∧
    ((step s e now).session).state.controls.playback.playing
      = ((step s e now).session).stopwatch.running := by
  refine ⟨rfl, rfl, ?_⟩
  cases e with
  | input code =>
    cases code
    · cases hb : s.state.controls.playback.playing <;>
        simp [step, StepResult.session, hb]
    · dsimp only [step]
      split <;> simp [StepResult.session, h]
    · dsimp only [step]
      split <;> simp [StepResult.session, h]
    · dsimp only [step]
      split <;> simp [StepResult.session, h]
    · dsimp only [step]
      split <;> simp [StepResult.session, h]
    · simp [step, StepResult.session, h]
    · simp [step, StepResult.session, h]
  | tick =>
    dsimp only [step]
    split
    · split
      · simp [StepResult.session, h]
      · simp [StepResult.session]
    · simp [StepResult.session, h]

theorem c10_witness :
    (initialSession ⟨[(⟨100⟩, "a")], 0⟩ 0).state.controls.playback.playing = false ∧
    (initialSession ⟨[(⟨100⟩, "a")], 0⟩ 0).stopwatch.running = false ∧
    ((step (initialSession ⟨[(⟨100⟩, "a")], 0⟩ 0)
        (Event.input KeyCode.space) 5).session).state.controls.playback.playing
      = ((step (initialSession ⟨[(⟨100⟩, "a")], 0⟩ 0)
          (Event.input KeyCode.space) 5).session).stopwatch.running :=
  c10_playing_iff_running ⟨[(⟨100⟩, "a")], 0⟩ 0
    (initialSession ⟨[(⟨100⟩, "a")], 0⟩ 0) (Event.input KeyCode.space) 5
    (by decide)

theorem Queue.new_songs_nil (files : List (String × Except String Lilac))
    (hall : ∀ f ∈ files, f.2.toOption = none) :
    (Queue.new files).1.songs = [] := by
  induction files with
  | nil => rfl
  | cons f rest ih =>
    have hf := hall f (List.mem_cons_self _ _)
    have hrest := fun g hg => hall g (List.mem_cons_of_mem _ hg)
    rcases f with ⟨p, r⟩
    cases r with
    | ok l => simp [Except.toOption] at hf
    | error e =>
      simpa [Queue.new, List.filterMap_cons] using ih hrest

/-- C9: when the input file list is empty or every file fails to decode,
the session returns `crate::OK` (exit code 0) without entering raw mode or
the alternate screen and without drawing a frame; every decode failure is
written to the log and dropped from the queue. -/
theorem c9_empty_queue_clean_exit (files : List (String × Except String Lilac))
    (deviceOk : Bool) (t0 : Nat) (events : List (Event × Nat))
    (drawErr : Nat → Bool)
    (hall : ∀ f ∈ files, f.2.toOption = none) :
    (interactiveMain files deviceOk t0 events drawErr).result = Except.ok () ∧
    (interactiveMain files deviceOk t0 events drawErr).rawModeEntered = false ∧
    (interactiveMain files deviceOk t0 events drawErr).altScreenEntered = false ∧
    (interactiveMain files deviceOk t0 events drawErr).framesDrawn = 0 ∧
    (interactiveMain files deviceOk t0 events drawErr).log
      = files.filterMap (fun f =>
          match f.2 with
          | .ok _ => none
          | .error e => some e) ∧
    (Queue.new files).1.songs = [] := by
  have hnil := Queue.new_songs_nil files hall
  have hempty : (Queue.new files).1.isEmpty = true := by
    simp [Queue.isEmpty, hnil]
  refine ⟨?_, ?_, ?_, ?_, ?_, hnil⟩ <;>
    · simp only [interactiveMain, hempty, ite_true]
      try rfl

theorem c9_witness :
    (interactiveMain [("a", Except.error "bad")] true 0 [] (fun _ => false)
      ).result = Except.ok () ∧
    (interactiveMain [("a", Except.error "bad")] true 0 [] (fun _ => false)
      ).rawModeEntered = false ∧
    (interactiveMain [("a", Except.error "bad")] true 0 [] (fun _ => false)
      ).altScreenEntered = false ∧
    (interactiveMain [("a", Except.error "bad")] true 0 [] (fun _ => false)
      ).framesDrawn = 0 ∧
    (interactiveMain [("a", Except.error "bad")] true 0 [] (fun _ => false)
      ).log
      = [("a", (Except.error "bad" : Except String Lilac))].filterMap (fun f =>
          match f.2 with
          | .ok _ => none
          | .error e => some e) ∧
    (Queue.new [("a", Except.error "bad")]).1.songs = [] :=
  c9_empty_queue_clean_exit [("a", Except.error "bad")] true 0 []
    (fun _ => false) (by decide)

/-- C8 as stated is false on the code: with one successfully decoded track
and a draw call failing on the first frame, the error propagates out of the
session via `?` while raw mode and the alternate screen, both entered, are
never exited. -/
theorem c8_counterexample :
    (interactiveMain [("a", Except.ok ⟨1000⟩)] true 0 [(Event.tick, 100)]
        (fun _ => true)).result = Except.error "draw" ∧
    (interactiveMain [("a", Except.ok ⟨1000⟩)] true 0 [(Event.tick, 100)]
        (fun _ => true)).rawModeEntered = true ∧
    (interactiveMain [("a", Except.ok ⟨1000⟩)] true 0 [(Event.tick, 100)]
        (fun _ => true)).altScreenEntered = true ∧
    (interactiveMain [("a", Except.ok ⟨1000⟩)] true 0 [(Event.tick, 100)]
        (fun _ => true)).rawModeExited = false ∧
    (interactiveMain [("a", Except.ok ⟨1000⟩)] true 0 [(Event.tick, 100)]
        (fun _ => true)).altScreenLeft = false := by
  decide

/-- C8 amended: after terminal setup, the session restores the terminal
(leaves the alternate screen, disables raw mode) only on the normal exit
path where the loop breaks on Escape; when a draw call or the channel
receive inside the main loop returns an error, the error is propagated out
of the session with raw mode and the alternate screen still active. -/
theorem c8_amended_restore_only_on_clean_exit
    (files : List (String × Except String Lilac)) (t0 : Nat)
    (events : List (Event × Nat)) (drawErr : Nat → Bool)
    (hne : (Queue.new files).1.isEmpty = false) :
    (∀ u, (interactiveMain files true t0 events drawErr).result = Except.ok u →
      (interactiveMain files true t0 events drawErr).rawModeExited = true ∧
      (interactiveMain files true t0 events drawErr).altScreenLeft = true) ∧
    (∀ msg,
      (interactiveMain files true t0 events drawErr).result = Except.error msg →
      (interactiveMain files true t0 events drawErr).rawModeEntered = true ∧
      (interactiveMain files true t0 events drawErr).altScreenEntered = true ∧
      (interactiveMain files true t0 events drawErr).rawModeExited = false ∧
      (interactiveMain files true t0 events drawErr).altScreenLeft = false) := by
  rcases hr : runLoop drawErr (initialSession (Queue.new files).1 t0) 0 events
    with ⟨res, frames⟩
  cases res <;> simp [interactiveMain, hne, hr]

theorem c8_amended_witness :
    (interactiveMain [("a", Except.ok ⟨1000⟩)] true 0
        [(Event.input KeyCode.esc, 0)] (fun _ => false)).rawModeExited = true ∧
    (interactiveMain [("a", Except.ok ⟨1000⟩)] true 0
        [(Event.input KeyCode.esc, 0)] (fun _ => false)).altScreenLeft = true :=
  (c8_amended_restore_only_on_clean_exit [("a", Except.ok ⟨1000⟩)] 0
    [(Event.input KeyCode.esc, 0)] (fun _ => false) (by decide)).1 () (by decide)

end LilacPlayer
